import Mathlib

/-!
# Verification of the KPI aggregation data layer

Shallow embedding of `core/data_layer.py`: the data-quality layer
(`validate_dataframe`, `safe_divide`), the three KPI builders
(factory, DC, store), the facade getters with their level-preference
logic, the node-health status classifier, and the uninitialized-access
guard of the global data layer.

Numeric cells of raw tables are modelled as `Option ℚ` (`none` is a
missing value / NaN); cleaned domain rows feeding the builders carry
plain `ℚ` values, matching the pipeline where builders run on validated
data.  Tables are finite lists; pandas group-by is modelled by taking
the deduplicated list of key values and summing each fiber.
-/

namespace DataLayer

/-! ## Data quality layer (`DataQualityLayer`, data_layer.py lines 26-77) -/

/-- Keywords marking quantity-semantics columns (data_layer.py line 56). -/
def quantityKeywords : List String := ["qty", "units", "stock", "demand", "capacity"]

/-- Contiguous-substring search on character lists (Python's `in` on strings). -/
def subSearch (needle : List Char) : List Char → Bool
  | [] => needle.isEmpty
  | c :: rest => needle.isPrefixOf (c :: rest) || subSearch needle rest

/-- ASCII lowercasing of one character (Python `str.lower` on the ASCII
column names used by the pipeline). -/
def lowerChar (c : Char) : Char :=
  if c.isUpper then Char.ofNat (c.toNat + 32) else c

/-- Substring test used by `validate_dataframe`: Python `keyword in col.lower()`. -/
def containsKeyword (name : String) : Bool :=
  quantityKeywords.any (fun k => subSearch k.data (name.data.map lowerChar))

/-- Column payload: numeric (cells may be missing) or non-numeric. -/
inductive ColData where
  | num : List (Option ℚ) → ColData
  | str : List (Option String) → ColData
deriving DecidableEq

/-- A named column of a raw table. -/
structure Col where
  name : String
  data : ColData
deriving DecidableEq

/-- A raw table: its row count plus its columns. -/
structure Table where
  nrows : ℕ
  cols : List Col
deriving DecidableEq

/-- Clip every present numeric cell to `≥ 0` (pandas `clip(lower=0)`;
missing cells stay missing). -/
def clipNonneg (xs : List (Option ℚ)) : List (Option ℚ) :=
  xs.map (fun x? => x?.map (fun x => max x 0))

/-- Count of strictly negative present cells (pandas `(col < 0).sum()`;
a missing cell compares false). -/
def negCount (xs : List (Option ℚ)) : ℕ :=
  (xs.filter (fun x? => match x? with | some x => decide (x < 0) | none => false)).length

/-- Per-column cleaning step of `validate_dataframe` (lines 54-61): a numeric
column whose name contains a quantity keyword is clipped to `≥ 0`; every
other column is untouched. -/
def cleanCol (c : Col) : Col :=
  match c.data with
  | ColData.num xs =>
      if containsKeyword c.name then { name := c.name, data := ColData.num (clipNonneg xs) } else c
  | ColData.str _ => c

/-- The `invalid_values` contribution of one column: an entry is written
only for a quantity-keyword numeric column with a positive
negative-value count (lines 57-60). -/
def invalidEntry (c : Col) : Option (String × ℕ) :=
  match c.data with
  | ColData.num xs =>
      if containsKeyword c.name ∧ 0 < negCount xs then some (c.name, negCount xs) else none
  | ColData.str _ => none

/-- The `invalid_values` entries of the quality report. -/
def invalidValues (t : Table) : List (String × ℕ) :=
  t.cols.filterMap invalidEntry

/-- Quality report fields relevant to the claims (lines 38-70). -/
structure QualityReport where
  name : String
  original_rows : ℕ
  invalid_values : List (String × ℕ)
  final_rows : ℕ
  rows_dropped : ℕ
deriving DecidableEq

/-- `DataQualityLayer.validate_dataframe` (lines 30-72): clip negative
values of quantity-keyword numeric columns and report the counts; no rows
are ever added or dropped. -/
def validate_dataframe (t : Table) (name : String) : Table × QualityReport :=
  let cleaned : Table := { nrows := t.nrows, cols := t.cols.map cleanCol }
  (cleaned,
   { name := name
     original_rows := t.nrows
     invalid_values := invalidValues t
     final_rows := cleaned.nrows
     rows_dropped := t.nrows - cleaned.nrows })

/-- Elementwise core of `DataQualityLayer.safe_divide` (line 77):
`numerator.div(denominator.replace(0, nan)).fillna(default)`.  A zero or
missing denominator, or a missing numerator, yields the default. -/
def safeDivCell (n? d? : Option ℚ) (default : ℚ) : ℚ :=
  match n?, d? with
  | some n, some d => if d = 0 then default else n / d
  | _, _ => default

/-- `DataQualityLayer.safe_divide` on series (line 77). -/
def safe_divide (numerator denominator : List (Option ℚ)) (default : ℚ) : List ℚ :=
  List.zipWith (fun n? d? => safeDivCell n? d? default) numerator denominator

/-- Scalar safe division with default, used by the KPI builders where the
aggregated series have no missing cells. -/
def safeDiv (n d default : ℚ) : ℚ :=
  if d = 0 then default else n / d

/-- Concrete input table exercising the quality layer: one quantity
column containing a negative cell and one non-numeric column. -/
def qualityWitnessTable : Table :=
  { nrows := 2
    cols := [ { name := "stock_units", data := ColData.num [some (-3), some 2] },
              { name := "notes", data := ColData.str [some "a", none] } ] }

/-! ## Group-by machinery

Pandas `df.groupby(keys).agg(sum)` is modelled by listing the distinct
key values in order of first appearance (`keysOf`) and summing each
fiber (`fiberSum`). -/

/-- The distinct key values of a row list, in order of first appearance. -/
def keysOf {α K : Type} [DecidableEq K] (key : α → K) (rows : List α) : List K :=
  (rows.map key).dedup

/-- The rows of a group. -/
def fiber {α K : Type} [DecidableEq K] (key : α → K) (rows : List α) (k : K) : List α :=
  rows.filter (fun r => decide (key r = k))

/-- The group-by sum of a numeric column over one group. -/
def fiberSum {α K : Type} [DecidableEq K] (key : α → K) (f : α → ℚ) (rows : List α)
    (k : K) : ℚ :=
  ((fiber key rows k).map f).sum

/-! ## Factory KPI builder (`_compute_factory_kpis`, lines 208-367) -/

/-- One row of the (cleaned, timestamped) factory predictions extract. -/
structure FactoryRow where
  factory_id : String
  line_id : String
  date : String
  hour : ℕ
  prod_actual_qty : ℚ
  prod_plan_qty : ℚ
  defect_qty : ℚ
  scrap_qty : ℚ
  batch_size_units : ℚ
deriving DecidableEq

/-- The factory extract: the set of column names present plus the rows. -/
structure FactoryTable where
  cols : List String
  rows : List FactoryRow
deriving DecidableEq

/-- One row of the stacked factory KPI table. -/
structure FactoryAggRow where
  factory_id : String
  line_id : Option String
  date : Option String
  hour : Option ℕ
  prod_actual_qty : ℚ
  prod_plan_qty : ℚ
  defect_qty : ℚ
  scrap_qty : ℚ
  batch_size_units : ℚ
  line_utilization_pct : ℚ
  production_adherence_pct : ℚ
  defect_rate_pct : ℚ
  waste_units : ℚ
  waste_sar : ℚ
  kpi_level : String
deriving DecidableEq

/-- KPI formulas applied to one aggregated factory group (lines 232-251,
repeated verbatim at every level): safe-divided percentages, scrap-based
waste and the 10.0 SAR nominal unit cost. -/
def mkFactoryAgg (fid : String) (lid : Option String) (d : Option String) (h : Option ℕ)
    (act plan dq sq batch : ℚ) (level : String) : FactoryAggRow :=
  { factory_id := fid, line_id := lid, date := d, hour := h
    prod_actual_qty := act, prod_plan_qty := plan, defect_qty := dq, scrap_qty := sq
    batch_size_units := batch
    line_utilization_pct := safeDiv act batch 0 * 100
    production_adherence_pct := safeDiv act plan 0 * 100
    defect_rate_pct := safeDiv dq act 0 * 100
    waste_units := sq
    waste_sar := sq * 10
    kpi_level := level }

/-- One aggregation level of the factory builder: group by `key`, sum the
five quantity columns, apply the KPI formulas and tag with the level. -/
def factoryLevelRows {K : Type} [DecidableEq K] (key : FactoryRow → K)
    (dims : K → String × Option String × Option String × Option ℕ) (level : String)
    (rows : List FactoryRow) : List FactoryAggRow :=
  (keysOf key rows).map (fun k =>
    mkFactoryAgg (dims k).1 (dims k).2.1 (dims k).2.2.1 (dims k).2.2.2
      (fiberSum key (fun r => r.prod_actual_qty) rows k)
      (fiberSum key (fun r => r.prod_plan_qty) rows k)
      (fiberSum key (fun r => r.defect_qty) rows k)
      (fiberSum key (fun r => r.scrap_qty) rows k)
      (fiberSum key (fun r => r.batch_size_units) rows k)
      level)

/-- Group key of the `factory_line_date_hour` level. -/
def factoryKeyLDH (r : FactoryRow) : String × String × String × ℕ :=
  (r.factory_id, r.line_id, r.date, r.hour)

/-- Group key of the `factory_line_date` level. -/
def factoryKeyLD (r : FactoryRow) : String × String × String :=
  (r.factory_id, r.line_id, r.date)

/-- Group key of the `factory_line` level. -/
def factoryKeyL (r : FactoryRow) : String × String :=
  (r.factory_id, r.line_id)

/-- Group key of the `factory` level. -/
def factoryKeyF (r : FactoryRow) : String :=
  r.factory_id

/-- Required columns of the factory builder (line 213). -/
def factoryRequiredCols : List String :=
  ["prod_actual_qty", "prod_plan_qty", "defect_qty", "scrap_qty", "batch_size_units"]

/-- `_compute_factory_kpis`: empty output when a required column is
missing, otherwise the four levels stacked from most granular to the
per-factory level (granular levels only when `factory_id`/`line_id`
exist). -/
def computeFactoryKpis (t : FactoryTable) : List FactoryAggRow :=
  if factoryRequiredCols.all (fun c => t.cols.contains c) then
    (if t.cols.contains "factory_id" && t.cols.contains "line_id" then
      factoryLevelRows factoryKeyLDH
        (fun k => (k.1, some k.2.1, some k.2.2.1, some k.2.2.2)) "factory_line_date_hour" t.rows
      ++ factoryLevelRows factoryKeyLD
        (fun k => (k.1, some k.2.1, some k.2.2, none)) "factory_line_date" t.rows
      ++ factoryLevelRows factoryKeyL
        (fun k => (k.1, some k.2, none, none)) "factory_line" t.rows
    else [])
    ++ (if t.cols.contains "factory_id" then
      factoryLevelRows factoryKeyF (fun k => (k, none, none, none)) "factory" t.rows
    else [])
  else []

/-! ## DC KPI builder (`_compute_dc_kpis`, lines 369-491) -/

/-- One row of the (cleaned, timestamped) DC forecasts extract. -/
structure DcRow where
  dc_id : String
  sku_id : String
  date : String
  hour : ℕ
  opening_stock_units : ℚ
  predicted_demand : ℚ
  forecast_hour_offset : ℤ
deriving DecidableEq

/-- The DC extract: the set of column names present plus the rows. -/
structure DcTable where
  cols : List String
  rows : List DcRow
deriving DecidableEq

/-- One row of the stacked DC KPI table (`days_cover` is only produced at
the granular and SKU levels, hence optional). -/
structure DcAggRow where
  dc_id : String
  sku_id : Option String
  date : Option String
  hour : Option ℕ
  opening_stock_units : ℚ
  predicted_demand : ℚ
  service_level_pct : ℚ
  waste_pct : ℚ
  backorder_units : ℚ
  days_cover : Option ℚ
  kpi_level : String
deriving DecidableEq

/-- KPI formulas applied to one aggregated DC group (lines 392-419):
service level `min(stock, demand)/demand`, waste `max(stock-demand,0)/stock`,
backorders `demand` when stock is zero, days of cover `stock/demand`. -/
def mkDcAgg (dcid : String) (sku : Option String) (d : Option String) (h : Option ℕ)
    (stock demand : ℚ) (withDays : Bool) (level : String) : DcAggRow :=
  { dc_id := dcid, sku_id := sku, date := d, hour := h
    opening_stock_units := stock, predicted_demand := demand
    service_level_pct := safeDiv (min stock demand) demand 0 * 100
    waste_pct := safeDiv (max (stock - demand) 0) stock 0 * 100
    backorder_units := if stock = 0 then demand else 0
    days_cover := if withDays then some (safeDiv stock demand 0) else none
    kpi_level := level }

/-- Row filter applied before any DC grouping (lines 382-383): keep only
`forecast_hour_offset == 1` when the column exists. -/
def dcPrep (t : DcTable) : List DcRow :=
  if t.cols.contains "forecast_hour_offset" then
    t.rows.filter (fun r => decide (r.forecast_hour_offset = 1))
  else t.rows

/-- One aggregation level of the DC builder. -/
def dcLevelRows {K : Type} [DecidableEq K] (key : DcRow → K)
    (dims : K → String × Option String × Option String × Option ℕ) (withDays : Bool)
    (level : String) (rows : List DcRow) : List DcAggRow :=
  (keysOf key rows).map (fun k =>
    mkDcAgg (dims k).1 (dims k).2.1 (dims k).2.2.1 (dims k).2.2.2
      (fiberSum key (fun r => r.opening_stock_units) rows k)
      (fiberSum key (fun r => r.predicted_demand) rows k)
      withDays level)

/-- Required columns of the DC builder (line 373). -/
def dcRequiredCols : List String := ["opening_stock_units", "predicted_demand"]

/-- `_compute_dc_kpis`: empty output when a required column is missing,
otherwise the three levels stacked (the per-DC level without
`days_cover`). -/
def computeDcKpis (t : DcTable) : List DcAggRow :=
  if dcRequiredCols.all (fun c => t.cols.contains c) then
    (if t.cols.contains "dc_id" && t.cols.contains "sku_id" then
      dcLevelRows (fun r => (r.dc_id, r.sku_id, r.date, r.hour))
        (fun k => (k.1, some k.2.1, some k.2.2.1, some k.2.2.2)) true "dc_sku_date_hour" (dcPrep t)
      ++ dcLevelRows (fun r => (r.dc_id, r.sku_id))
        (fun k => (k.1, some k.2, none, none)) true "dc_sku" (dcPrep t)
    else [])
    ++ (if t.cols.contains "dc_id" then
      dcLevelRows (fun r => r.dc_id) (fun k => (k, none, none, none)) false "dc" (dcPrep t)
    else [])
  else []

/-! ## Store KPI builder (`_compute_store_kpis`, lines 493-619) -/

/-- One row of the (cleaned, timestamped) store forecasts extract.  The
`waste_units`/`waste_cost` fields are meaningful only when the
corresponding columns are listed in `cols`. -/
structure StoreRow where
  store_id : String
  sku_id : String
  date : String
  hour : ℕ
  on_shelf_units : ℚ
  planogram_capacity_units : ℚ
  waste_units : ℚ
  waste_cost : ℚ
  forecast_hour_offset : ℤ
deriving DecidableEq

/-- The store extract: the set of column names present plus the rows. -/
structure StoreTable where
  cols : List String
  rows : List StoreRow
deriving DecidableEq

/-- One row of the stacked store KPI table. -/
structure StoreAggRow where
  store_id : String
  sku_id : Option String
  date : Option String
  hour : Option ℕ
  on_shelf_units : ℚ
  planogram_capacity_units : ℚ
  on_shelf_availability_pct : ℚ
  stockout_incidents : ℕ
  waste_units : ℚ
  waste_sar : ℚ
  kpi_level : String
deriving DecidableEq

/-- Row filter of the store builder (lines 506-507): keep only
`forecast_hour_offset == 1` when the column exists. -/
def storePrepFiltered (t : StoreTable) : List StoreRow :=
  if t.cols.contains "forecast_hour_offset" then
    t.rows.filter (fun r => decide (r.forecast_hour_offset = 1))
  else t.rows

/-- Row preparation of the store builder (lines 506-510): the offset
filter followed by clipping `on_shelf_units` to `≥ 0` (line 510). -/
def storePrep (t : StoreTable) : List StoreRow :=
  (storePrepFiltered t).map (fun r => { r with on_shelf_units := max r.on_shelf_units 0 })

/-- KPI formulas applied to one aggregated store group (lines 530-548):
availability `on_shelf/capacity`, and waste taken from the CSV columns
when present (clipped units, cost as-is) or derived as capacity overflow
times the 10.0 SAR nominal cost. -/
def mkStoreAgg (useCsv : Bool) (sid : String) (sku : Option String) (d : Option String)
    (h : Option ℕ) (shelf cap wUnits wCost : ℚ) (stockout : ℕ) (level : String) :
    StoreAggRow :=
  { store_id := sid, sku_id := sku, date := d, hour := h
    on_shelf_units := shelf, planogram_capacity_units := cap
    on_shelf_availability_pct := safeDiv shelf cap 0 * 100
    stockout_incidents := stockout
    waste_units := if useCsv then max wUnits 0 else max (shelf - cap) 0
    waste_sar := if useCsv then wCost else max (shelf - cap) 0 * 10
    kpi_level := level }

/-- One aggregation level of the store builder; `stockoutOf` is the
per-group stockout figure, which differs between the granular/SKU levels
(indicator of a zero group sum, lines 540 and 571) and the per-store
level (row count, lines 602-604). -/
def storeLevelRows {K : Type} [DecidableEq K] (key : StoreRow → K)
    (dims : K → String × Option String × Option String × Option ℕ) (useCsv : Bool)
    (level : String) (stockoutOf : K → ℕ) (rows : List StoreRow) : List StoreAggRow :=
  (keysOf key rows).map (fun k =>
    mkStoreAgg useCsv (dims k).1 (dims k).2.1 (dims k).2.2.1 (dims k).2.2.2
      (fiberSum key (fun r => r.on_shelf_units) rows k)
      (fiberSum key (fun r => r.planogram_capacity_units) rows k)
      (fiberSum key (fun r => r.waste_units) rows k)
      (fiberSum key (fun r => r.waste_cost) rows k)
      (stockoutOf k) level)

/-- Per-store stockout count (lines 602-604): rows of the prepared
extract with `on_shelf_units <= 0`, counted per store (the left merge
plus `fillna(0)` makes a store with no such rows count zero). -/
def storeStockoutCount (rows : List StoreRow) (sid : String) : ℕ :=
  (rows.filter (fun r => decide (r.store_id = sid) && decide (r.on_shelf_units ≤ 0))).length

/-- Group key of the `store_sku_date_hour` level. -/
def storeKeySSDH (r : StoreRow) : String × String × String × ℕ :=
  (r.store_id, r.sku_id, r.date, r.hour)

/-- Group key of the `store_sku` level. -/
def storeKeySS (r : StoreRow) : String × String :=
  (r.store_id, r.sku_id)

/-- Required columns of the store builder (line 497). -/
def storeRequiredCols : List String := ["on_shelf_units", "planogram_capacity_units"]

/-- `_compute_store_kpis`: empty output when a required column is
missing, otherwise the three levels stacked. -/
def computeStoreKpis (t : StoreTable) : List StoreAggRow :=
  if storeRequiredCols.all (fun c => t.cols.contains c) then
    (if t.cols.contains "store_id" && t.cols.contains "sku_id" then
      storeLevelRows storeKeySSDH
        (fun k => (k.1, some k.2.1, some k.2.2.1, some k.2.2.2))
        (t.cols.contains "waste_units" && t.cols.contains "waste_cost") "store_sku_date_hour"
        (fun k =>
          if fiberSum storeKeySSDH (fun r => r.on_shelf_units) (storePrep t) k = 0 then 1 else 0)
        (storePrep t)
      ++ storeLevelRows storeKeySS
        (fun k => (k.1, some k.2, none, none))
        (t.cols.contains "waste_units" && t.cols.contains "waste_cost") "store_sku"
        (fun k =>
          if fiberSum storeKeySS (fun r => r.on_shelf_units) (storePrep t) k = 0 then 1 else 0)
        (storePrep t)
    else [])
    ++ (if t.cols.contains "store_id" then
      storeLevelRows (fun r => r.store_id) (fun k => (k, none, none, none))
        (t.cols.contains "waste_units" && t.cols.contains "waste_cost") "store"
        (fun sid => storeStockoutCount (storePrep t) sid) (storePrep t)
    else [])
  else []

/-! ## Concrete tables used by counterexamples and witnesses -/

/-- Standard factory column list. -/
def factoryStdCols : List String :=
  ["prod_actual_qty", "prod_plan_qty", "defect_qty", "scrap_qty", "batch_size_units",
   "factory_id", "line_id", "date", "hour"]

/-- Factory extract with one row whose actual output is twice the batch
capacity: `prod_actual_qty = 200`, `batch_size_units = 100`. -/
def cexFactoryTable : FactoryTable :=
  { cols := factoryStdCols
    rows := [{ factory_id := "F1", line_id := "L1", date := "2024-01-01", hour := 8
               prod_actual_qty := 200, prod_plan_qty := 200, defect_qty := 0
               scrap_qty := 0, batch_size_units := 100 }] }

/-- Factory extract with one factory and two lines, for the cross-level
consistency witness. -/
def witFactoryTable : FactoryTable :=
  { cols := factoryStdCols
    rows := [{ factory_id := "F1", line_id := "L1", date := "d", hour := 0
               prod_actual_qty := 80, prod_plan_qty := 100, defect_qty := 1
               scrap_qty := 2, batch_size_units := 100 },
             { factory_id := "F1", line_id := "L2", date := "d", hour := 0
               prod_actual_qty := 120, prod_plan_qty := 100, defect_qty := 0
               scrap_qty := 0, batch_size_units := 100 }] }

/-- Standard DC column list. -/
def dcStdCols : List String :=
  ["opening_stock_units", "predicted_demand", "dc_id", "sku_id", "date", "hour",
   "forecast_hour_offset"]

/-- DC extract with one zero-stock row (`stock = 0`, `demand = 50`). -/
def witDcTable : DcTable :=
  { cols := dcStdCols
    rows := [{ dc_id := "D1", sku_id := "K1", date := "d", hour := 0
               opening_stock_units := 0, predicted_demand := 50
               forecast_hour_offset := 1 }] }

/-- Standard store column list (without the optional CSV waste columns). -/
def storeStdCols : List String :=
  ["on_shelf_units", "planogram_capacity_units", "store_id", "sku_id", "date", "hour",
   "forecast_hour_offset"]

/-- Store extract with two rows in the same `(store, sku, date, hour)`
group, both with `on_shelf_units = 0`. -/
def cexStoreTable : StoreTable :=
  { cols := storeStdCols
    rows := [{ store_id := "S1", sku_id := "K1", date := "d", hour := 0
               on_shelf_units := 0, planogram_capacity_units := 10
               waste_units := 0, waste_cost := 0, forecast_hour_offset := 1 },
             { store_id := "S1", sku_id := "K1", date := "d", hour := 0
               on_shelf_units := 0, planogram_capacity_units := 10
               waste_units := 0, waste_cost := 0, forecast_hour_offset := 1 }] }

/-- The granular aggregate row the store builder produces for
`cexStoreTable` (the single `(S1, K1, d, 0)` group). -/
def witStoreAgg : StoreAggRow :=
  mkStoreAgg false "S1" (some "K1") (some "d") (some 0)
    (fiberSum storeKeySSDH (fun r => r.on_shelf_units) (storePrep cexStoreTable)
      ("S1", "K1", "d", 0))
    (fiberSum storeKeySSDH (fun r => r.planogram_capacity_units) (storePrep cexStoreTable)
      ("S1", "K1", "d", 0))
    (fiberSum storeKeySSDH (fun r => r.waste_units) (storePrep cexStoreTable)
      ("S1", "K1", "d", 0))
    (fiberSum storeKeySSDH (fun r => r.waste_cost) (storePrep cexStoreTable)
      ("S1", "K1", "d", 0))
    (if fiberSum storeKeySSDH (fun r => r.on_shelf_units) (storePrep cexStoreTable)
      ("S1", "K1", "d", 0) = 0 then 1 else 0)
    "store_sku_date_hour"

/-- Factory extract missing the `prod_plan_qty` required column. -/
def missingColFactoryTable : FactoryTable :=
  { cols := ["prod_actual_qty", "factory_id", "line_id", "date", "hour"], rows := [] }

/-- DC extract missing both required columns. -/
def missingColDcTable : DcTable := { cols := ["dc_id"], rows := [] }

/-- Store extract missing the `planogram_capacity_units` required column. -/
def missingColStoreTable : StoreTable := { cols := ["on_shelf_units", "store_id"], rows := [] }

/-! ## Facade getters (`GlobalDataLayer.get_*_kpis`, lines 665-759)

The getters operate on the merged intermediate table.  A row of that
table is modelled by its dimension values (absent, i.e. NaN after the
outer join, is `none`) and its level tag, which the filtering logic
reads; the column projection `df[available_cols]` only drops columns and
never changes which rows are selected, so it is not modelled. -/

/-- A row of the merged intermediate table, as seen by the getters. -/
structure GRow where
  factory_id : Option String
  line_id : Option String
  dc_id : Option String
  store_id : Option String
  sku_id : Option String
  kpi_level : String
deriving DecidableEq

/-- Python truthiness of an optional string filter argument (`if factory_id:`
is false for `None` and for the empty string). -/
def truthy (s : Option String) : Bool :=
  match s with
  | none => false
  | some v => !(v == "")

/-- The level-preference step shared by all getters: replace the row set
by its preferred-level subset unless that subset is empty. -/
def preferLevels (rows : List GRow) (pref : GRow → Bool) : List GRow :=
  if (rows.filter pref).isEmpty then rows else rows.filter pref

/-- Pre-preference row selection of `get_factory_kpis` (lines 677-683):
drop rows with a missing `factory_id`, then apply the truthy equality
filters. -/
def factorySelect (df : List GRow) (factory_id line_id : Option String) : List GRow :=
  let s1 := df.filter (fun r => r.factory_id.isSome)
  let s2 := if truthy factory_id then
    s1.filter (fun r => decide (r.factory_id = factory_id)) else s1
  if truthy line_id then s2.filter (fun r => decide (r.line_id = line_id)) else s2

/-- Row selection of `get_factory_kpis` (lines 665-697): the filters,
then prefer `{factory_line, factory_line_date}` when both keys are given
and the single `factory` level when only `factory_id` is given. -/
def getFactoryKpisRows (df : List GRow) (factory_id line_id : Option String) : List GRow :=
  if truthy factory_id && truthy line_id then
    preferLevels (factorySelect df factory_id line_id)
      (fun r => decide (r.kpi_level = "factory_line") || decide (r.kpi_level = "factory_line_date"))
  else if truthy factory_id then
    preferLevels (factorySelect df factory_id line_id) (fun r => decide (r.kpi_level = "factory"))
  else factorySelect df factory_id line_id

/-- Pre-preference row selection of `get_dc_kpis` (lines 710-716). -/
def dcSelect (df : List GRow) (dc_id sku_id : Option String) : List GRow :=
  let s1 := df.filter (fun r => r.dc_id.isSome)
  let s2 := if truthy dc_id then
    s1.filter (fun r => decide (r.dc_id = dc_id)) else s1
  if truthy sku_id then s2.filter (fun r => decide (r.sku_id = sku_id)) else s2

/-- Row selection of `get_dc_kpis` (lines 699-728). -/
def getDcKpisRows (df : List GRow) (dc_id sku_id : Option String) : List GRow :=
  if truthy dc_id && truthy sku_id then
    preferLevels (dcSelect df dc_id sku_id)
      (fun r => decide (r.kpi_level = "dc_sku") || decide (r.kpi_level = "dc_sku_date_hour"))
  else if truthy dc_id then
    preferLevels (dcSelect df dc_id sku_id) (fun r => decide (r.kpi_level = "dc"))
  else dcSelect df dc_id sku_id

/-- Pre-preference row selection of `get_store_kpis` (lines 741-747). -/
def storeSelect (df : List GRow) (store_id sku_id : Option String) : List GRow :=
  let s1 := df.filter (fun r => r.store_id.isSome)
  let s2 := if truthy store_id then
    s1.filter (fun r => decide (r.store_id = store_id)) else s1
  if truthy sku_id then s2.filter (fun r => decide (r.sku_id = sku_id)) else s2

/-- Row selection of `get_store_kpis` (lines 730-759). -/
def getStoreKpisRows (df : List GRow) (store_id sku_id : Option String) : List GRow :=
  if truthy store_id && truthy sku_id then
    preferLevels (storeSelect df store_id sku_id)
      (fun r => decide (r.kpi_level = "store_sku") || decide (r.kpi_level = "store_sku_date_hour"))
  else if truthy store_id then
    preferLevels (storeSelect df store_id sku_id) (fun r => decide (r.kpi_level = "store"))
  else storeSelect df store_id sku_id

/-- Intermediate-table rows used by the level-preference counterexample:
both rows match `factory_id = F1, line_id = L1`; one sits at the most
granular level and one at `factory_line`. -/
def cexGranularRow : GRow :=
  { factory_id := some "F1", line_id := some "L1", dc_id := none, store_id := none
    sku_id := none, kpi_level := "factory_line_date_hour" }

/-- The coarser `factory_line` row of the same entity. -/
def cexLineRow : GRow :=
  { factory_id := some "F1", line_id := some "L1", dc_id := none, store_id := none
    sku_id := none, kpi_level := "factory_line" }

/-- The two-row intermediate table of the level-preference counterexample. -/
def cexGetterDf : List GRow := [cexGranularRow, cexLineRow]

/-! ## Facade initialization guard (`GlobalDataLayer`, lines 647-663)

The mutable singleton state is reduced to the cached intermediate table:
`none` before `initialize` has completed, `some df` afterwards. -/

/-- `get_dataframe` (lines 659-663): raises `RuntimeError` when the
cache is `None`, otherwise returns a copy of the cached table. -/
def getDataframeE (st : Option (List GRow)) : Except String (List GRow) :=
  match st with
  | none => Except.error "Data layer not initialized. Call initialize() first."
  | some df => Except.ok df

/-- `get_factory_kpis` at the facade: `self.get_dataframe()` first, so the
uninitialized error propagates. -/
def getFactoryKpisE (st : Option (List GRow)) (factory_id line_id : Option String) :
    Except String (List GRow) :=
  (getDataframeE st).map (fun df => getFactoryKpisRows df factory_id line_id)

/-- `get_dc_kpis` at the facade. -/
def getDcKpisE (st : Option (List GRow)) (dc_id sku_id : Option String) :
    Except String (List GRow) :=
  (getDataframeE st).map (fun df => getDcKpisRows df dc_id sku_id)

/-- `get_store_kpis` at the facade. -/
def getStoreKpisE (st : Option (List GRow)) (store_id sku_id : Option String) :
    Except String (List GRow) :=
  (getDataframeE st).map (fun df => getStoreKpisRows df store_id sku_id)

/-- `initialize` (lines 647-657): a no-op when already initialized,
otherwise cache the built intermediate table. -/
def initFacade (st : Option (List GRow)) (built : List GRow) : Option (List GRow) :=
  match st with
  | some df => some df
  | none => some built

/-! ## Node health status (`get_node_health`, lines 962-1200) -/

/-- The tri-state status classification applied identically to factory,
DC and store nodes (lines 1034-1039, 1100-1105, 1182-1187). -/
def nodeStatus (service_level waste_pct : ℚ) : String :=
  if service_level > 90 ∧ waste_pct < 5 then "good"
  else if (75 ≤ service_level ∧ service_level ≤ 90) ∨ (5 ≤ waste_pct ∧ waste_pct ≤ 15) then
    "warning"
  else "danger"

/-- One record of the `get_node_health` output. -/
structure NodeRecord where
  node_id : String
  name : String
  node_type : String
  service_level : ℚ
  waste_pct : ℚ
  mape : ℚ
  alerts : ℕ
  status : String
deriving DecidableEq

/-- Assembly of one node record (lines 1041-1050 and the analogous DC and
store blocks): the status field is always `nodeStatus` of the computed
service level and waste percentage. -/
def mkNodeRecord (node_id name node_type : String) (service_level waste_pct mape : ℚ)
    (alerts : ℕ) : NodeRecord :=
  { node_id := node_id, name := name, node_type := node_type
    service_level := service_level, waste_pct := waste_pct, mape := mape
    alerts := alerts, status := nodeStatus service_level waste_pct }

end DataLayer

namespace DataLayer

/-! ## Theorems: safe division (C4) -/

/-- C4: `safe_divide` yields the default at every position where the
denominator is zero, and the elementwise quotient `n / d` at every
position where the denominator is a nonzero value; the result is a plain
rational everywhere (no NaN or infinity can be produced). -/
theorem safe_divide_spec (ns ds : List (Option ℚ)) (c : ℚ) (i : ℕ)
    (h : i < (safe_divide ns ds c).length) :
    (ds[i]? = some (some 0) → (safe_divide ns ds c)[i] = c) ∧
    (∀ n d : ℚ, ns[i]? = some (some n) → ds[i]? = some (some d) → d ≠ 0 →
      (safe_divide ns ds c)[i] = n / d) := by
  have hlen : i < ns.length ∧ i < ds.length := by
    have := h
    simp only [safe_divide, List.length_zipWith, lt_min_iff] at this
    exact this
  have hget : (safe_divide ns ds c)[i] =
      safeDivCell (ns.get ⟨i, hlen.1⟩) (ds.get ⟨i, hlen.2⟩) c := by
    simp [safe_divide]
  constructor
  · intro hd
    have hd0 : ds.get ⟨i, hlen.2⟩ = some 0 := by
      have h2 := List.getElem?_eq_getElem hlen.2
      rw [h2] at hd
      exact Option.some.inj hd
    rw [hget, hd0]
    cases hn : ns.get ⟨i, hlen.1⟩ with
    | none => simp [safeDivCell]
    | some n => simp [safeDivCell]
  · intro n d hn hd hdne
    have hn0 : ns.get ⟨i, hlen.1⟩ = some n := by
      have h2 := List.getElem?_eq_getElem hlen.1
      rw [h2] at hn
      exact Option.some.inj hn
    have hd0 : ds.get ⟨i, hlen.2⟩ = some d := by
      have h2 := List.getElem?_eq_getElem hlen.2
      rw [h2] at hd
      exact Option.some.inj hd
    rw [hget, hn0, hd0]
    simp [safeDivCell, hdne]

/-! ## Quality-layer helper lemmas -/

theorem cleanCol_name (c : Col) : (cleanCol c).name = c.name := by
  unfold cleanCol
  cases c with
  | mk n d =>
    cases d with
    | num xs => dsimp only; split <;> rfl
    | str xs => rfl

theorem cleanCol_of_not_keyword (c : Col) (h : containsKeyword c.name = false) :
    cleanCol c = c := by
  unfold cleanCol
  cases c with
  | mk n d =>
    cases d with
    | num xs => simp only [h, Bool.false_eq_true, if_false]
    | str xs => rfl

theorem mem_clipNonneg_nonneg {xs : List (Option ℚ)} {x : ℚ}
    (hx : some x ∈ clipNonneg xs) : 0 ≤ x := by
  unfold clipNonneg at hx
  rcases List.mem_map.mp hx with ⟨y?, _, hy⟩
  cases y? with
  | none => simp at hy
  | some y =>
    have hy2 : some (max y 0) = some x := hy
    have : x = max y 0 := (Option.some.inj hy2).symm
    rw [this]
    exact le_max_right y 0

theorem invalidEntry_fst {c : Col} {p : String × ℕ} (h : invalidEntry c = some p) :
    p.1 = c.name := by
  unfold invalidEntry at h
  cases c with
  | mk n d =>
    cases d with
    | num xs =>
      dsimp only at h
      split at h
      · exact (congrArg Prod.fst (Option.some.inj h)).symm
      · exact absurd h (by simp)
    | str xs => exact absurd h (by simp)

theorem lookup_cons_ne {β : Type} (key a : String) (b : β) (es : List (String × β))
    (h : (key == a) = false) :
    List.lookup key ((a, b) :: es) = List.lookup key es := by
  simp [List.lookup, h]

theorem lookup_cons_self {β : Type} (a : String) (b : β) (es : List (String × β)) :
    List.lookup a ((a, b) :: es) = some b := by
  simp [List.lookup]

theorem lookup_filterMap_invalid_none (key : String) (l : List Col)
    (h : ∀ c ∈ l, c.name ≠ key) :
    (l.filterMap invalidEntry).lookup key = none := by
  induction l with
  | nil => rfl
  | cons hd tl ih =>
    rw [List.filterMap_cons]
    cases hhd : invalidEntry hd with
    | none => exact ih (fun c hc => h c (List.mem_cons_of_mem hd hc))
    | some p =>
      have hne : hd.name ≠ key := h hd (List.mem_cons_self hd tl)
      cases p with
      | mk a b =>
        have hp : a = hd.name := invalidEntry_fst hhd
        have hka : ¬ key = a := fun he => hne (by rw [← hp]; exact he.symm)
        rw [lookup_cons_ne key a b _ (beq_eq_false_iff_ne.mpr hka)]
        exact ih (fun c hc => h c (List.mem_cons_of_mem hd hc))

theorem lookup_invalid (l : List Col) (hnd : (l.map Col.name).Nodup) (c : Col)
    (hc : c ∈ l) (xs : List (Option ℚ)) (hdata : c.data = ColData.num xs)
    (hkw : containsKeyword c.name = true) :
    (l.filterMap invalidEntry).lookup c.name =
      if 0 < negCount xs then some (negCount xs) else none := by
  induction l with
  | nil => exact absurd hc (List.not_mem_nil c)
  | cons hd tl ih =>
    have hnd1 : hd.name ∉ tl.map Col.name := by
      rw [List.map_cons] at hnd
      exact (List.nodup_cons.mp hnd).1
    have hnd2 : (tl.map Col.name).Nodup := by
      rw [List.map_cons] at hnd
      exact (List.nodup_cons.mp hnd).2
    rw [List.filterMap_cons]
    rcases List.mem_cons.mp hc with hceq | hctl
    · subst hceq
      have hentry : invalidEntry c =
          if 0 < negCount xs then some (c.name, negCount xs) else none := by
        unfold invalidEntry
        rw [hdata]
        dsimp only
        by_cases hpos : 0 < negCount xs
        · rw [if_pos ⟨hkw, hpos⟩, if_pos hpos]
        · rw [if_neg (fun hcon => hpos hcon.2), if_neg hpos]
      by_cases hpos : 0 < negCount xs
      · rw [hentry, if_pos hpos, if_pos hpos]
        exact lookup_cons_self c.name (negCount xs) _
      · rw [hentry, if_neg hpos, if_neg hpos]
        exact lookup_filterMap_invalid_none c.name tl
          (fun c0 hc0 => fun he =>
            hnd1 (he ▸ List.mem_map.mpr ⟨c0, hc0, rfl⟩))
    · have hcn : c.name ∈ tl.map Col.name := List.mem_map.mpr ⟨c, hctl, rfl⟩
      have hne : hd.name ≠ c.name := fun he => hnd1 (he ▸ hcn)
      cases hhd : invalidEntry hd with
      | none => exact ih hnd2 hctl
      | some p =>
        cases p with
        | mk a b =>
          have hp : a = hd.name := invalidEntry_fst hhd
          have hka : ¬ c.name = a := fun he => hne (by rw [← hp]; exact he.symm)
          rw [lookup_cons_ne c.name a b _ (beq_eq_false_iff_ne.mpr hka)]
          exact ih hnd2 hctl

/-! ## Theorems: quality clipping (C5) and the validate frame condition (C10) -/

/-- C5: after `validate_dataframe`, every present value of a
quantity-keyword numeric column is nonnegative (so the column minimum is
`≥ 0`), and the `invalid_values` report carries exactly the count of
original negative entries for that column — an entry equal to the count
when the count is positive, and no entry (meaning zero) otherwise. -/
theorem validate_quantity_clipping (t : Table) (name : String)
    (hnd : (t.cols.map Col.name).Nodup) :
    (∀ c ∈ (validate_dataframe t name).1.cols, containsKeyword c.name = true →
      ∀ xs, c.data = ColData.num xs → ∀ x : ℚ, some x ∈ xs → 0 ≤ x) ∧
    (∀ c ∈ t.cols, containsKeyword c.name = true →
      ∀ xs, c.data = ColData.num xs →
      (validate_dataframe t name).2.invalid_values.lookup c.name =
        if 0 < negCount xs then some (negCount xs) else none) := by
  constructor
  · intro c hc hkw xs hdata x hx
    rcases List.mem_map.mp hc with ⟨c0, _, hc0⟩
    subst hc0
    unfold cleanCol at hdata hkw
    cases c0 with
    | mk n d =>
      cases d with
      | num ys =>
        dsimp only at hdata hkw
        by_cases hkw0 : containsKeyword n = true
        · rw [if_pos hkw0] at hdata
          dsimp only at hdata
          have : xs = clipNonneg ys := (ColData.num.inj hdata).symm
          exact mem_clipNonneg_nonneg (this ▸ hx)
        · rw [if_neg hkw0] at hkw
          exact absurd hkw hkw0
      | str ys =>
        dsimp only at hdata
        exact absurd hdata (by simp)
  · intro c hc hkw xs hdata
    exact lookup_invalid t.cols hnd c hc xs hdata hkw

/-- Witness for C5 at a concrete table: the `stock_units` column holds
`[-3, 2]`, so the cleaned values are reported with one invalid entry. -/
theorem validate_quantity_clipping_witness :
    (qualityWitnessTable.cols.map Col.name).Nodup ∧
    (validate_dataframe qualityWitnessTable "w").2.invalid_values.lookup "stock_units" =
      if 0 < negCount [some (-3), some 2] then some (negCount [some (-3), some 2]) else none :=
  ⟨by decide,
   (validate_quantity_clipping qualityWitnessTable "w" (by decide)).2
     { name := "stock_units", data := ColData.num [some (-3), some 2] }
     (by decide) (by decide) [some (-3), some 2] rfl⟩

/-- C10: `validate_dataframe` keeps the table shape intact — the cleaned
table has the same row count (`final_rows = original_rows`,
`rows_dropped = 0`) and the same column names, and every column whose
name contains no quantity keyword is returned value-for-value
unchanged. -/
theorem validate_frame (t : Table) (name : String) :
    (validate_dataframe t name).1.nrows = t.nrows ∧
    (validate_dataframe t name).2.final_rows = (validate_dataframe t name).2.original_rows ∧
    (validate_dataframe t name).2.rows_dropped = 0 ∧
    (validate_dataframe t name).1.cols.map Col.name = t.cols.map Col.name ∧
    ∀ i : ℕ, ∀ c : Col, t.cols[i]? = some c → containsKeyword c.name = false →
      (validate_dataframe t name).1.cols[i]? = some c := by
  refine ⟨rfl, rfl, Nat.sub_self t.nrows, ?_, ?_⟩
  · show (t.cols.map cleanCol).map Col.name = t.cols.map Col.name
    rw [List.map_map]
    exact List.map_congr_left (fun c _ => cleanCol_name c)
  · intro i c hget hkw
    show (t.cols.map cleanCol)[i]? = some c
    rw [List.getElem?_map, hget]
    show some (cleanCol c) = some c
    rw [cleanCol_of_not_keyword c hkw]

/-- Witness for C4 on a concrete series: denominators `[0, 2]` with
numerators `[5, 6]` and default `7` give the default `7` at position 0. -/
theorem safe_divide_spec_witness :
    0 < (safe_divide [some 5, some 6] [some 0, some 2] 7).length ∧
    (safe_divide [some 5, some 6] [some 0, some 2] 7).get ⟨0, by decide⟩ = 7 :=
  ⟨by decide, (safe_divide_spec [some 5, some 6] [some 0, some 2] 7 0 (by decide)).1 rfl⟩

/-! ## Theorems: uninitialized facade access (C9) -/

/-- C9: every facade getter called while the cache is still `None`
produces the `RuntimeError`, while after initialization each getter
returns an `ok` table (possibly empty); the error is distinct from the
`ok` empty-table result. -/
theorem uninitialized_getter_error :
    (getDataframeE none = Except.error "Data layer not initialized. Call initialize() first.") ∧
    (∀ fid lid, getFactoryKpisE none fid lid =
      Except.error "Data layer not initialized. Call initialize() first.") ∧
    (∀ did sid, getDcKpisE none did sid =
      Except.error "Data layer not initialized. Call initialize() first.") ∧
    (∀ sid skid, getStoreKpisE none sid skid =
      Except.error "Data layer not initialized. Call initialize() first.") ∧
    (∀ df fid lid, getFactoryKpisE (some df) fid lid =
      Except.ok (getFactoryKpisRows df fid lid)) ∧
    (∀ df did sid, getDcKpisE (some df) did sid = Except.ok (getDcKpisRows df did sid)) ∧
    (∀ df sid skid, getStoreKpisE (some df) sid skid =
      Except.ok (getStoreKpisRows df sid skid)) ∧
    (∀ built, getDataframeE (initFacade none built) = Except.ok built) ∧
    (∀ msg, Except.error msg ≠ (Except.ok [] : Except String (List GRow))) :=
  ⟨rfl, fun _ _ => rfl, fun _ _ => rfl, fun _ _ => rfl, fun _ _ _ => rfl, fun _ _ _ => rfl,
   fun _ _ _ => rfl, fun _ => rfl, fun _ => Except.noConfusion⟩

/-! ## Theorems: node health status classification (C2) -/

/-- C2 counterexample: a node with service level 70 and waste 10 is
classified `warning` by the code although the claim (`danger` exactly
when service < 75 or waste > 15) demands `danger` for it. -/
theorem node_status_claim_cex :
    (mkNodeRecord "S9" "S9 Store" "Store" 70 10 0 0).status = "warning" ∧
    ((70:ℚ) < 75 ∨ (15:ℚ) < 10) ∧ ("warning" ≠ "danger") := by
  refine ⟨?_, Or.inl (by norm_num), by decide⟩
  show nodeStatus 70 10 = "warning"
  unfold nodeStatus
  rw [if_neg (fun h => absurd h.1 (by norm_num)), if_pos (Or.inr (by norm_num))]

/-- C2 amended: `good` exactly when service > 90 and waste < 5 (as the
claim states); but `danger` exactly when (service > 90 and waste > 15)
or (service < 75 and waste outside [5, 15]); `warning` in every other
case — in particular service < 75 with waste in [5, 15] yields
`warning`, not `danger`. -/
theorem node_status_amended (i n ty : String) (s w m : ℚ) (a : ℕ) :
    ((mkNodeRecord i n ty s w m a).status = "good" ↔ (90 < s ∧ w < 5)) ∧
    ((mkNodeRecord i n ty s w m a).status = "danger" ↔
      ((90 < s ∧ 15 < w) ∨ (s < 75 ∧ (w < 5 ∨ 15 < w)))) ∧
    ((mkNodeRecord i n ty s w m a).status = "warning" ↔
      (¬(90 < s ∧ w < 5) ∧ ((75 ≤ s ∧ s ≤ 90) ∨ (5 ≤ w ∧ w ≤ 15)))) := by
  show ((nodeStatus s w = "good" ↔ _) ∧ (nodeStatus s w = "danger" ↔ _) ∧
    (nodeStatus s w = "warning" ↔ _))
  unfold nodeStatus
  split_ifs with h1 h2
  · refine ⟨iff_of_true rfl h1, iff_of_false (by decide) ?_, iff_of_false (by decide) ?_⟩
    · rintro (⟨-, hw⟩ | ⟨hs, -⟩)
      · have := h1.2
        linarith
      · have := h1.1
        linarith
    · exact fun hcon => hcon.1 h1
  · refine ⟨iff_of_false (by decide) h1, iff_of_false (by decide) ?_,
      iff_of_true rfl ⟨h1, h2⟩⟩
    rintro (⟨h90, hw⟩ | ⟨hs, hw⟩)
    · rcases h2 with ⟨-, hs90⟩ | ⟨-, hw15⟩ <;> linarith
    · rcases h2 with ⟨h75, -⟩ | ⟨h5, h15⟩
      · linarith
      · rcases hw with hw | hw <;> linarith
  · have hw : w < 5 ∨ 15 < w := by
      by_contra hcon
      push_neg at hcon
      exact h2 (Or.inr hcon)
    have hs : s < 75 ∨ 90 < s := by
      by_contra hcon
      push_neg at hcon
      exact h2 (Or.inl hcon)
    have hB : (90 < s ∧ 15 < w) ∨ (s < 75 ∧ (w < 5 ∨ 15 < w)) := by
      rcases hs with hs1 | hs2
      · exact Or.inr ⟨hs1, hw⟩
      · rcases hw with hw1 | hw2
        · exact absurd ⟨hs2, hw1⟩ h1
        · exact Or.inl ⟨hs2, hw2⟩
    exact ⟨iff_of_false (by decide) h1, iff_of_true rfl hB,
      iff_of_false (by decide) (fun hcon => h2 hcon.2)⟩

/-! ## Theorems: builders on missing required columns (C8) -/

theorem all_contains_false {cs cols : List String} (h : ∃ c ∈ cs, c ∉ cols) :
    (cs.all (fun c => cols.contains c)) = false := by
  cases hall : cs.all (fun c => cols.contains c)
  · rfl
  · exfalso
    rcases h with ⟨c, hc, hnc⟩
    have := List.all_eq_true.mp hall c hc
    exact hnc (by simpa using this)

/-- C8: each KPI builder returns the empty table (not an error — the
builders are total functions) whenever at least one of its required
columns is missing from the input extract. -/
theorem builder_missing_required_empty (ft : FactoryTable) (dt : DcTable) (st : StoreTable)
    (hf : ∃ c ∈ factoryRequiredCols, c ∉ ft.cols)
    (hd : ∃ c ∈ dcRequiredCols, c ∉ dt.cols)
    (hs : ∃ c ∈ storeRequiredCols, c ∉ st.cols) :
    computeFactoryKpis ft = [] ∧ computeDcKpis dt = [] ∧ computeStoreKpis st = [] := by
  refine ⟨?_, ?_, ?_⟩
  · unfold computeFactoryKpis
    rw [if_neg (fun hcon => Bool.false_ne_true ((all_contains_false hf) ▸ hcon))]
  · unfold computeDcKpis
    rw [if_neg (fun hcon => Bool.false_ne_true ((all_contains_false hd) ▸ hcon))]
  · unfold computeStoreKpis
    rw [if_neg (fun hcon => Bool.false_ne_true ((all_contains_false hs) ▸ hcon))]

/-- Witness for C8 at concrete extracts each missing a required column. -/
theorem builder_missing_required_empty_witness :
    ((∃ c ∈ factoryRequiredCols, c ∉ missingColFactoryTable.cols) ∧
     (∃ c ∈ dcRequiredCols, c ∉ missingColDcTable.cols) ∧
     (∃ c ∈ storeRequiredCols, c ∉ missingColStoreTable.cols)) ∧
    (computeFactoryKpis missingColFactoryTable = [] ∧
     computeDcKpis missingColDcTable = [] ∧
     computeStoreKpis missingColStoreTable = []) :=
  ⟨⟨by decide, by decide, by decide⟩,
   builder_missing_required_empty missingColFactoryTable missingColDcTable missingColStoreTable
     (by decide) (by decide) (by decide)⟩

/-! ## Theorems: getter level preference (C3) -/

/-- C3 counterexample: with both `factory_id` and `line_id` supplied, the
getter returns the `factory_line` row and drops the matching
`factory_line_date_hour` row, although the claim requires only rows at
the most granular matching level. -/
theorem getter_level_preference_cex :
    getFactoryKpisRows cexGetterDf (some "F1") (some "L1") = [cexLineRow] ∧
    cexGranularRow ∈ cexGetterDf ∧
    cexGranularRow.factory_id = some "F1" ∧ cexGranularRow.line_id = some "L1" ∧
    cexGranularRow.kpi_level = "factory_line_date_hour" ∧
    cexLineRow.kpi_level ≠ "factory_line_date_hour" := by
  decide

theorem mem_preferLevels {rows : List GRow} {p : GRow → Bool} {r : GRow}
    (hex : ∃ r0 ∈ rows, p r0 = true) (hr : r ∈ preferLevels rows p) : p r = true := by
  rcases hex with ⟨r0, h0, hp0⟩
  have hmem : r0 ∈ rows.filter p := List.mem_filter.mpr ⟨h0, hp0⟩
  have hne : (rows.filter p).isEmpty = false := by
    cases he : (rows.filter p).isEmpty
    · rfl
    · exfalso
      have hnil : rows.filter p = [] := List.isEmpty_iff.mp he
      rw [hnil] at hmem
      cases hmem
  unfold preferLevels at hr
  rw [hne] at hr
  rw [if_neg Bool.false_ne_true] at hr
  exact (List.mem_filter.mp hr).2

theorem mem_select_pattern {df : List GRow} {r0 : GRow} (fa fb : GRow → Option String)
    (va vb : Option String)
    (h : r0 ∈ df) (hsome : (fa r0).isSome = true)
    (h1 : truthy va = true → fa r0 = va)
    (h2 : truthy vb = true → fb r0 = vb) :
    r0 ∈ (let s1 := df.filter (fun r => (fa r).isSome)
          let s2 := if truthy va then s1.filter (fun r => decide (fa r = va)) else s1
          if truthy vb then s2.filter (fun r => decide (fb r = vb)) else s2) := by
  show r0 ∈ (if truthy vb then
      (if truthy va then
        (df.filter (fun r => (fa r).isSome)).filter (fun r => decide (fa r = va))
      else df.filter (fun r => (fa r).isSome)).filter (fun r => decide (fb r = vb))
    else
      (if truthy va then
        (df.filter (fun r => (fa r).isSome)).filter (fun r => decide (fa r = va))
      else df.filter (fun r => (fa r).isSome)))
  have hs1 : r0 ∈ df.filter (fun r => (fa r).isSome) := List.mem_filter.mpr ⟨h, hsome⟩
  have hs2 : r0 ∈ (if truthy va then
      (df.filter (fun r => (fa r).isSome)).filter (fun r => decide (fa r = va))
    else df.filter (fun r => (fa r).isSome)) := by
    split
    · next hc => exact List.mem_filter.mpr ⟨hs1, decide_eq_true (h1 hc)⟩
    · exact hs1
  split
  · next hc => exact List.mem_filter.mpr ⟨hs2, decide_eq_true (h2 hc)⟩
  · exact hs2

/-- C3 amended: with both keys supplied, each getter restricts the
matching rows to its preferred two-level set — `{factory_line,
factory_line_date}` for the factory getter, `{dc_sku, dc_sku_date_hour}`
for the DC getter, `{store_sku, store_sku_date_hour}` for the store
getter — whenever matching rows at those levels exist (so the factory
result mixes two levels and excludes the most granular level rather than
holding only most-granular rows); with only the coarser key supplied,
the result holds only coarsest-level rows whenever such matching rows
exist. -/
theorem getter_level_preference_amended (df : List GRow) (fid lid : String)
    (hfid : fid ≠ "") (hlid : lid ≠ "") :
    ((∃ r0 ∈ df, r0.factory_id = some fid ∧ r0.line_id = some lid ∧
        (r0.kpi_level = "factory_line" ∨ r0.kpi_level = "factory_line_date")) →
      ∀ r ∈ getFactoryKpisRows df (some fid) (some lid),
        r.kpi_level = "factory_line" ∨ r.kpi_level = "factory_line_date") ∧
    ((∃ r0 ∈ df, r0.factory_id = some fid ∧ r0.kpi_level = "factory") →
      ∀ r ∈ getFactoryKpisRows df (some fid) none, r.kpi_level = "factory") ∧
    ((∃ r0 ∈ df, r0.dc_id = some fid ∧ r0.sku_id = some lid ∧
        (r0.kpi_level = "dc_sku" ∨ r0.kpi_level = "dc_sku_date_hour")) →
      ∀ r ∈ getDcKpisRows df (some fid) (some lid),
        r.kpi_level = "dc_sku" ∨ r.kpi_level = "dc_sku_date_hour") ∧
    ((∃ r0 ∈ df, r0.dc_id = some fid ∧ r0.kpi_level = "dc") →
      ∀ r ∈ getDcKpisRows df (some fid) none, r.kpi_level = "dc") ∧
    ((∃ r0 ∈ df, r0.store_id = some fid ∧ r0.sku_id = some lid ∧
        (r0.kpi_level = "store_sku" ∨ r0.kpi_level = "store_sku_date_hour")) →
      ∀ r ∈ getStoreKpisRows df (some fid) (some lid),
        r.kpi_level = "store_sku" ∨ r.kpi_level = "store_sku_date_hour") ∧
    ((∃ r0 ∈ df, r0.store_id = some fid ∧ r0.kpi_level = "store") →
      ∀ r ∈ getStoreKpisRows df (some fid) none, r.kpi_level = "store") := by
  have htf : truthy (some fid) = true := by simp [truthy, hfid]
  have htl : truthy (some lid) = true := by simp [truthy, hlid]
  refine ⟨?_, ?_, ?_, ?_, ?_, ?_⟩
  · rintro ⟨r0, h0, ha, hb, hlev⟩ r hr
    have hget : getFactoryKpisRows df (some fid) (some lid) =
        preferLevels (factorySelect df (some fid) (some lid))
          (fun r => decide (r.kpi_level = "factory_line") ||
            decide (r.kpi_level = "factory_line_date")) := by
      unfold getFactoryKpisRows
      rw [htf, htl]
      rfl
    rw [hget] at hr
    have h0s : r0 ∈ factorySelect df (some fid) (some lid) :=
      mem_select_pattern (fun r => r.factory_id) (fun r => r.line_id) (some fid) (some lid)
        h0 (by simp [ha]) (fun _ => ha) (fun _ => hb)
    have hp0 : (decide (r0.kpi_level = "factory_line") ||
        decide (r0.kpi_level = "factory_line_date")) = true := by
      rcases hlev with he | he <;> simp [he]
    have := mem_preferLevels ⟨r0, h0s, hp0⟩ hr
    simpa using this
  · rintro ⟨r0, h0, ha, hlev⟩ r hr
    have hget : getFactoryKpisRows df (some fid) none =
        preferLevels (factorySelect df (some fid) none)
          (fun r => decide (r.kpi_level = "factory")) := by
      unfold getFactoryKpisRows
      rw [htf]
      rfl
    rw [hget] at hr
    have h0s : r0 ∈ factorySelect df (some fid) none :=
      mem_select_pattern (fun r => r.factory_id) (fun r => r.line_id) (some fid) none
        h0 (by simp [ha]) (fun _ => ha) (fun hc => by cases hc)
    have := mem_preferLevels ⟨r0, h0s, by simp [hlev]⟩ hr
    simpa using this
  · rintro ⟨r0, h0, ha, hb, hlev⟩ r hr
    have hget : getDcKpisRows df (some fid) (some lid) =
        preferLevels (dcSelect df (some fid) (some lid))
          (fun r => decide (r.kpi_level = "dc_sku") ||
            decide (r.kpi_level = "dc_sku_date_hour")) := by
      unfold getDcKpisRows
      rw [htf, htl]
      rfl
    rw [hget] at hr
    have h0s : r0 ∈ dcSelect df (some fid) (some lid) :=
      mem_select_pattern (fun r => r.dc_id) (fun r => r.sku_id) (some fid) (some lid)
        h0 (by simp [ha]) (fun _ => ha) (fun _ => hb)
    have hp0 : (decide (r0.kpi_level = "dc_sku") ||
        decide (r0.kpi_level = "dc_sku_date_hour")) = true := by
      rcases hlev with he | he <;> simp [he]
    have := mem_preferLevels ⟨r0, h0s, hp0⟩ hr
    simpa using this
  · rintro ⟨r0, h0, ha, hlev⟩ r hr
    have hget : getDcKpisRows df (some fid) none =
        preferLevels (dcSelect df (some fid) none)
          (fun r => decide (r.kpi_level = "dc")) := by
      unfold getDcKpisRows
      rw [htf]
      rfl
    rw [hget] at hr
    have h0s : r0 ∈ dcSelect df (some fid) none :=
      mem_select_pattern (fun r => r.dc_id) (fun r => r.sku_id) (some fid) none
        h0 (by simp [ha]) (fun _ => ha) (fun hc => by cases hc)
    have := mem_preferLevels ⟨r0, h0s, by simp [hlev]⟩ hr
    simpa using this
  · rintro ⟨r0, h0, ha, hb, hlev⟩ r hr
    have hget : getStoreKpisRows df (some fid) (some lid) =
        preferLevels (storeSelect df (some fid) (some lid))
          (fun r => decide (r.kpi_level = "store_sku") ||
            decide (r.kpi_level = "store_sku_date_hour")) := by
      unfold getStoreKpisRows
      rw [htf, htl]
      rfl
    rw [hget] at hr
    have h0s : r0 ∈ storeSelect df (some fid) (some lid) :=
      mem_select_pattern (fun r => r.store_id) (fun r => r.sku_id) (some fid) (some lid)
        h0 (by simp [ha]) (fun _ => ha) (fun _ => hb)
    have hp0 : (decide (r0.kpi_level = "store_sku") ||
        decide (r0.kpi_level = "store_sku_date_hour")) = true := by
      rcases hlev with he | he <;> simp [he]
    have := mem_preferLevels ⟨r0, h0s, hp0⟩ hr
    simpa using this
  · rintro ⟨r0, h0, ha, hlev⟩ r hr
    have hget : getStoreKpisRows df (some fid) none =
        preferLevels (storeSelect df (some fid) none)
          (fun r => decide (r.kpi_level = "store")) := by
      unfold getStoreKpisRows
      rw [htf]
      rfl
    rw [hget] at hr
    have h0s : r0 ∈ storeSelect df (some fid) none :=
      mem_select_pattern (fun r => r.store_id) (fun r => r.sku_id) (some fid) none
        h0 (by simp [ha]) (fun _ => ha) (fun hc => by cases hc)
    have := mem_preferLevels ⟨r0, h0s, by simp [hlev]⟩ hr
    simpa using this

/-- Witness for the amended C3 at the concrete two-row table: both keys
supplied yields only rows at the preferred two-level set. -/
theorem getter_level_preference_amended_witness :
    ("F1" ≠ "") ∧ ("L1" ≠ "") ∧
    ∀ r ∈ getFactoryKpisRows cexGetterDf (some "F1") (some "L1"),
      r.kpi_level = "factory_line" ∨ r.kpi_level = "factory_line_date" :=
  ⟨by decide, by decide,
   (getter_level_preference_amended cexGetterDf "F1" "L1" (by decide) (by decide)).1
     ⟨cexLineRow, by decide, by decide, by decide, Or.inl (by decide)⟩⟩

/-! ## Group-by partition lemmas

The cross-level consistency results rest on one fact: summing a column
over the fibers of a finer key, restricted to the fibers lying inside
one coarser group, recovers the coarser group sum. -/

theorem fiberSum_cons {α K : Type} [DecidableEq K] (key : α → K) (f : α → ℚ) (r : α)
    (rest : List α) (k : K) :
    fiberSum key f (r :: rest) k = (if key r = k then f r else 0) + fiberSum key f rest k := by
  unfold fiberSum fiber
  rw [List.filter_cons]
  by_cases h : key r = k
  · simp [h]
  · simp [h]

theorem sum_map_addQ {K : Type} (l : List K) (a b : K → ℚ) :
    (l.map (fun k => a k + b k)).sum = (l.map a).sum + (l.map b).sum := by
  induction l with
  | nil => simp
  | cons hd tl ih =>
    simp only [List.map_cons, List.sum_cons, ih]
    ring

theorem sum_ite_key {K : Type} [DecidableEq K] (keys : List K) (hnd : keys.Nodup) (k0 : K)
    (hk : k0 ∈ keys) (c : ℚ) :
    (keys.map (fun k => if k0 = k then c else 0)).sum = c := by
  induction keys with
  | nil => cases hk
  | cons hd tl ih =>
    have hnd1 : hd ∉ tl := (List.nodup_cons.mp hnd).1
    have hnd2 : tl.Nodup := (List.nodup_cons.mp hnd).2
    rw [List.map_cons, List.sum_cons]
    rcases List.mem_cons.mp hk with he | htl
    · rw [if_pos he]
      have hz : (tl.map (fun k => if k0 = k then c else 0)).sum = 0 := by
        apply List.sum_eq_zero
        intro x hx
        rcases List.mem_map.mp hx with ⟨k, hkmem, hkx⟩
        rw [← hkx, if_neg]
        intro hek
        exact hnd1 (by rw [he.symm.trans hek]; exact hkmem)
      rw [hz, add_zero]
    · have hne : k0 ≠ hd := fun he2 => hnd1 (he2 ▸ htl)
      rw [if_neg hne, zero_add]
      exact ih hnd2 htl

theorem sum_fiberSum {α K : Type} [DecidableEq K] (g : α → K) (f : α → ℚ) (keys : List K)
    (hnd : keys.Nodup) :
    ∀ rows : List α, (∀ r ∈ rows, g r ∈ keys) →
      (rows.map f).sum = (keys.map (fun k => fiberSum g f rows k)).sum := by
  intro rows
  induction rows with
  | nil =>
    intro _
    rw [List.map_nil, List.sum_nil]
    symm
    apply List.sum_eq_zero
    intro x hx
    rcases List.mem_map.mp hx with ⟨k, _, hk⟩
    rw [← hk]
    rfl
  | cons r rest ih =>
    intro hmem
    rw [List.map_cons, List.sum_cons, ih (fun x hx => hmem x (List.mem_cons_of_mem r hx))]
    have hcong : keys.map (fun k => fiberSum g f (r :: rest) k)
        = keys.map (fun k => (if g r = k then f r else 0) + fiberSum g f rest k) :=
      List.map_congr_left (fun k _ => fiberSum_cons g f r rest k)
    rw [hcong, sum_map_addQ,
      sum_ite_key keys hnd (g r) (hmem r (List.mem_cons_self r rest)) (f r)]

theorem fiberSum_of_not_mem {α K : Type} [DecidableEq K] (key : α → K) (f : α → ℚ)
    (rows : List α) (k : K) (h : k ∉ keysOf key rows) : fiberSum key f rows k = 0 := by
  unfold fiberSum fiber
  have hnil : rows.filter (fun r => decide (key r = k)) = [] := by
    apply List.filter_eq_nil_iff.mpr
    intro r hr
    simp only [decide_eq_true_eq]
    intro he
    exact h (List.mem_dedup.mpr (he ▸ List.mem_map.mpr ⟨r, hr, rfl⟩))
  rw [hnil]
  rfl

theorem filter_map_comm {A B : Type} (f : A → B) (p : B → Bool) (l : List A) :
    (l.map f).filter p = (l.filter (fun a => p (f a))).map f := by
  induction l with
  | nil => rfl
  | cons hd tl ih =>
    simp only [List.map_cons, List.filter_cons]
    cases h : p (f hd) <;> simp [h, ih]

theorem filter_eq_singleton {K : Type} [DecidableEq K] (l : List K) (hnd : l.Nodup) (a : K) :
    l.filter (fun k => decide (k = a)) = if a ∈ l then [a] else [] := by
  induction l with
  | nil => simp
  | cons hd tl ih =>
    have hnd1 : hd ∉ tl := (List.nodup_cons.mp hnd).1
    have hnd2 : tl.Nodup := (List.nodup_cons.mp hnd).2
    rw [List.filter_cons]
    by_cases he : hd = a
    · subst he
      rw [if_pos (by simp), if_pos (List.mem_cons_self hd tl)]
      have hz : tl.filter (fun k => decide (k = hd)) = [] := by
        apply List.filter_eq_nil_iff.mpr
        intro k hk
        simp only [decide_eq_true_eq]
        intro hkh
        exact hnd1 (hkh ▸ hk)
      rw [hz]
    · rw [if_neg (by simp [he])]
      rw [ih hnd2]
      by_cases ha : a ∈ tl
      · rw [if_pos ha, if_pos (List.mem_cons_of_mem hd ha)]
      · rw [if_neg ha, if_neg (by
          intro hmem
          rcases List.mem_cons.mp hmem with h1 | h2
          · exact he h1.symm
          · exact ha h2)]

theorem factoryLevelRows_level {K : Type} [DecidableEq K] {key : FactoryRow → K}
    {dims : K → String × Option String × Option String × Option ℕ} {level : String}
    {rows : List FactoryRow} {row : FactoryAggRow}
    (hrow : row ∈ factoryLevelRows key dims level rows) : row.kpi_level = level := by
  rcases List.mem_map.mp hrow with ⟨k, _, hk⟩
  rw [← hk]
  rfl

theorem fiber_fiber_factory (rows : List FactoryRow) (fid : String) (k : String × String)
    (hk : k.1 = fid) :
    fiber factoryKeyL (fiber factoryKeyF rows fid) k = fiber factoryKeyL rows k := by
  unfold fiber
  rw [List.filter_filter]
  apply List.filter_congr
  intro r _
  by_cases he : factoryKeyL r = k
  · have hf : factoryKeyF r = fid := by
      have h2 : (factoryKeyL r).1 = k.1 := congrArg Prod.fst he
      have h3 : r.factory_id = k.1 := h2
      show r.factory_id = fid
      rw [h3, hk]
    simp [he, hf]
  · simp [he]

/-! ## Theorems: cross-level consistency of the factory builder (C7) -/

/-- C7: in the stacked factory KPI table, the `prod_actual_qty` carried
by the (at most one) `factory`-level row of a factory equals the sum of
`prod_actual_qty` over all its `factory_line`-level rows. -/
theorem factory_level_consistency (t : FactoryTable) (fid : String)
    (hreq : factoryRequiredCols.all (fun c => t.cols.contains c) = true)
    (hfid : t.cols.contains "factory_id" = true)
    (hlid : t.cols.contains "line_id" = true) :
    (((computeFactoryKpis t).filter
        (fun r => decide (r.kpi_level = "factory") && decide (r.factory_id = fid))).map
      (fun r => r.prod_actual_qty)).sum =
    (((computeFactoryKpis t).filter
        (fun r => decide (r.kpi_level = "factory_line") && decide (r.factory_id = fid))).map
      (fun r => r.prod_actual_qty)).sum ∧
    ((computeFactoryKpis t).filter
        (fun r => decide (r.kpi_level = "factory") && decide (r.factory_id = fid))).length ≤ 1 := by
  have hboth : (t.cols.contains "factory_id" && t.cols.contains "line_id") = true := by
    rw [hfid, hlid]
    rfl
  have hout : computeFactoryKpis t =
      (factoryLevelRows factoryKeyLDH
        (fun k => (k.1, some k.2.1, some k.2.2.1, some k.2.2.2)) "factory_line_date_hour" t.rows
      ++ factoryLevelRows factoryKeyLD
        (fun k => (k.1, some k.2.1, some k.2.2, none)) "factory_line_date" t.rows
      ++ factoryLevelRows factoryKeyL
        (fun k => (k.1, some k.2, none, none)) "factory_line" t.rows)
      ++ factoryLevelRows factoryKeyF (fun k => (k, none, none, none)) "factory" t.rows := by
    unfold computeFactoryKpis
    rw [if_pos hreq, if_pos hboth, if_pos hfid]
  have hnilLev : ∀ {K : Type} [inst : DecidableEq K] (key : FactoryRow → K)
      (dims : K → String × Option String × Option String × Option ℕ)
      (level L : String), level ≠ L →
      (factoryLevelRows key dims level t.rows).filter
        (fun r => decide (r.kpi_level = L) && decide (r.factory_id = fid)) = [] := by
    intro K inst key dims level L hne
    apply List.filter_eq_nil_iff.mpr
    intro r hr
    have hl := factoryLevelRows_level hr
    simp [hl, hne]
  -- the factory-level side collapses to one fiber sum
  have hfac : ((computeFactoryKpis t).filter
      (fun r => decide (r.kpi_level = "factory") && decide (r.factory_id = fid))) =
      ((keysOf factoryKeyF t.rows).filter (fun k => decide (k = fid))).map
        (fun k => mkFactoryAgg k none none none
          (fiberSum factoryKeyF (fun r => r.prod_actual_qty) t.rows k)
          (fiberSum factoryKeyF (fun r => r.prod_plan_qty) t.rows k)
          (fiberSum factoryKeyF (fun r => r.defect_qty) t.rows k)
          (fiberSum factoryKeyF (fun r => r.scrap_qty) t.rows k)
          (fiberSum factoryKeyF (fun r => r.batch_size_units) t.rows k)
          "factory") := by
    rw [hout, List.filter_append, List.filter_append, List.filter_append]
    rw [hnilLev factoryKeyLDH _ _ _ (by decide), hnilLev factoryKeyLD _ _ _ (by decide),
      hnilLev factoryKeyL _ _ _ (by decide)]
    simp only [List.nil_append]
    unfold factoryLevelRows
    rw [filter_map_comm]
    congr 1
  -- the factory_line side collapses to the filtered key list
  have hline : ((computeFactoryKpis t).filter
      (fun r => decide (r.kpi_level = "factory_line") && decide (r.factory_id = fid))) =
      ((keysOf factoryKeyL t.rows).filter (fun k => decide (k.1 = fid))).map
        (fun k => mkFactoryAgg k.1 (some k.2) none none
          (fiberSum factoryKeyL (fun r => r.prod_actual_qty) t.rows k)
          (fiberSum factoryKeyL (fun r => r.prod_plan_qty) t.rows k)
          (fiberSum factoryKeyL (fun r => r.defect_qty) t.rows k)
          (fiberSum factoryKeyL (fun r => r.scrap_qty) t.rows k)
          (fiberSum factoryKeyL (fun r => r.batch_size_units) t.rows k)
          "factory_line") := by
    rw [hout, List.filter_append, List.filter_append, List.filter_append]
    rw [hnilLev factoryKeyLDH _ _ _ (by decide), hnilLev factoryKeyLD _ _ _ (by decide),
      hnilLev factoryKeyF _ _ _ (by decide)]
    simp only [List.nil_append, List.append_nil]
    unfold factoryLevelRows
    rw [filter_map_comm]
    congr 1
  constructor
  · rw [hfac, hline]
    rw [filter_eq_singleton (keysOf factoryKeyF t.rows) (List.nodup_dedup _) fid]
    have hmapline : (((keysOf factoryKeyL t.rows).filter (fun k => decide (k.1 = fid))).map
        (fun k => mkFactoryAgg k.1 (some k.2) none none
          (fiberSum factoryKeyL (fun r => r.prod_actual_qty) t.rows k)
          (fiberSum factoryKeyL (fun r => r.prod_plan_qty) t.rows k)
          (fiberSum factoryKeyL (fun r => r.defect_qty) t.rows k)
          (fiberSum factoryKeyL (fun r => r.scrap_qty) t.rows k)
          (fiberSum factoryKeyL (fun r => r.batch_size_units) t.rows k)
          "factory_line")).map (fun r => r.prod_actual_qty) =
        ((keysOf factoryKeyL t.rows).filter (fun k => decide (k.1 = fid))).map
          (fun k => fiberSum factoryKeyL (fun r => r.prod_actual_qty) t.rows k) := by
      rw [List.map_map]
      rfl
    rw [hmapline]
    -- right-hand side: the line-level fiber sums over this factory
    have hnd' : ((keysOf factoryKeyL t.rows).filter (fun k => decide (k.1 = fid))).Nodup :=
      (List.nodup_dedup _).filter _
    have hmem' : ∀ r ∈ fiber factoryKeyF t.rows fid,
        factoryKeyL r ∈ (keysOf factoryKeyL t.rows).filter (fun k => decide (k.1 = fid)) := by
      intro r hr
      have hr1 : r ∈ t.rows := (List.mem_filter.mp hr).1
      have hr2 : factoryKeyF r = fid := by
        have := (List.mem_filter.mp hr).2
        simpa using this
      apply List.mem_filter.mpr
      constructor
      · exact List.mem_dedup.mpr (List.mem_map.mpr ⟨r, hr1, rfl⟩)
      · simp only [decide_eq_true_eq]
        show (factoryKeyL r).1 = fid
        rw [← hr2]
        rfl
    have hpart := sum_fiberSum factoryKeyL (fun r => r.prod_actual_qty)
      ((keysOf factoryKeyL t.rows).filter (fun k => decide (k.1 = fid))) hnd'
      (fiber factoryKeyF t.rows fid) hmem'
    have hcollapse : ((keysOf factoryKeyL t.rows).filter (fun k => decide (k.1 = fid))).map
        (fun k => fiberSum factoryKeyL (fun r => r.prod_actual_qty)
          (fiber factoryKeyF t.rows fid) k) =
        ((keysOf factoryKeyL t.rows).filter (fun k => decide (k.1 = fid))).map
        (fun k => fiberSum factoryKeyL (fun r => r.prod_actual_qty) t.rows k) := by
      apply List.map_congr_left
      intro k hkmem
      have hk1 : k.1 = fid := by
        have := (List.mem_filter.mp hkmem).2
        simpa using this
      unfold fiberSum
      rw [fiber_fiber_factory t.rows fid k hk1]
    rw [← hcollapse, ← hpart]
    by_cases hin : fid ∈ keysOf factoryKeyF t.rows
    · rw [if_pos hin]
      simp only [List.map_cons, List.map_nil, List.sum_cons, List.sum_nil, add_zero]
      rfl
    · rw [if_neg hin]
      simp only [List.map_nil, List.sum_nil]
      exact (fiberSum_of_not_mem factoryKeyF (fun r => r.prod_actual_qty) t.rows fid hin).symm
  · rw [hfac, filter_eq_singleton (keysOf factoryKeyF t.rows) (List.nodup_dedup _) fid]
    by_cases hin : fid ∈ keysOf factoryKeyF t.rows
    · rw [if_pos hin]
      exact le_refl 1
    · rw [if_neg hin]
      exact Nat.zero_le 1

/-- Witness for C7 at a two-line factory extract: the factory-level
actual quantity (200) equals the sum of the line-level actual
quantities (80 + 120). -/
theorem factory_level_consistency_witness :
    (factoryRequiredCols.all (fun c => witFactoryTable.cols.contains c) = true) ∧
    (witFactoryTable.cols.contains "factory_id" = true) ∧
    (witFactoryTable.cols.contains "line_id" = true) ∧
    ((((computeFactoryKpis witFactoryTable).filter
        (fun r => decide (r.kpi_level = "factory") && decide (r.factory_id = "F1"))).map
      (fun r => r.prod_actual_qty)).sum =
    (((computeFactoryKpis witFactoryTable).filter
        (fun r => decide (r.kpi_level = "factory_line") && decide (r.factory_id = "F1"))).map
      (fun r => r.prod_actual_qty)).sum) :=
  ⟨by decide, by decide, by decide,
   (factory_level_consistency witFactoryTable "F1" (by decide) (by decide) (by decide)).1⟩

/-! ## Bound lemmas for the percentage KPIs -/

theorem fiberSum_nonneg {α K : Type} [DecidableEq K] (key : α → K) (f : α → ℚ)
    (rows : List α) (k : K) (h : ∀ r ∈ rows, 0 ≤ f r) : 0 ≤ fiberSum key f rows k := by
  unfold fiberSum
  apply List.sum_nonneg
  intro x hx
  rcases List.mem_map.mp hx with ⟨r, hr, hrx⟩
  rw [← hrx]
  exact h r (List.mem_filter.mp hr).1

theorem safeDiv_nonneg {n d : ℚ} (hn : 0 ≤ n) (hd : 0 ≤ d) : 0 ≤ safeDiv n d 0 := by
  unfold safeDiv
  split
  · exact le_refl 0
  · exact div_nonneg hn hd

theorem safeDiv_le_one {n d : ℚ} (hnd : n ≤ d) (hd : 0 ≤ d) : safeDiv n d 0 ≤ 1 := by
  unfold safeDiv
  split
  · norm_num
  · next h =>
    have hdpos : 0 < d := lt_of_le_of_ne hd (Ne.symm h)
    exact (div_le_one hdpos).mpr hnd

theorem factoryLevelRows_pct_nonneg {K : Type} [DecidableEq K] (key : FactoryRow → K)
    (dims : K → String × Option String × Option String × Option ℕ) (level : String)
    (rows : List FactoryRow)
    (hnn : ∀ r ∈ rows, 0 ≤ r.prod_actual_qty ∧ 0 ≤ r.prod_plan_qty ∧ 0 ≤ r.defect_qty ∧
      0 ≤ r.scrap_qty ∧ 0 ≤ r.batch_size_units) :
    ∀ row ∈ factoryLevelRows key dims level rows,
      0 ≤ row.line_utilization_pct ∧ 0 ≤ row.production_adherence_pct ∧
      0 ≤ row.defect_rate_pct := by
  intro row hrow
  rcases List.mem_map.mp hrow with ⟨k, _, hk⟩
  rw [← hk]
  have ha := fiberSum_nonneg key (fun r => r.prod_actual_qty) rows k
    (fun r hr => (hnn r hr).1)
  have hp := fiberSum_nonneg key (fun r => r.prod_plan_qty) rows k
    (fun r hr => (hnn r hr).2.1)
  have hdq := fiberSum_nonneg key (fun r => r.defect_qty) rows k
    (fun r hr => (hnn r hr).2.2.1)
  have hb := fiberSum_nonneg key (fun r => r.batch_size_units) rows k
    (fun r hr => (hnn r hr).2.2.2.2)
  exact ⟨mul_nonneg (safeDiv_nonneg ha hb) (by norm_num),
    mul_nonneg (safeDiv_nonneg ha hp) (by norm_num),
    mul_nonneg (safeDiv_nonneg hdq ha) (by norm_num)⟩

theorem dcLevelRows_pct_bounds {K : Type} [DecidableEq K] (key : DcRow → K)
    (dims : K → String × Option String × Option String × Option ℕ) (wd : Bool)
    (level : String) (rows : List DcRow)
    (hnn : ∀ r ∈ rows, 0 ≤ r.opening_stock_units ∧ 0 ≤ r.predicted_demand) :
    ∀ row ∈ dcLevelRows key dims wd level rows,
      (0 ≤ row.service_level_pct ∧ row.service_level_pct ≤ 100) ∧
      (0 ≤ row.waste_pct ∧ row.waste_pct ≤ 100) := by
  intro row hrow
  rcases List.mem_map.mp hrow with ⟨k, _, hk⟩
  rw [← hk]
  have hs := fiberSum_nonneg key (fun r => r.opening_stock_units) rows k
    (fun r hr => (hnn r hr).1)
  have hdm := fiberSum_nonneg key (fun r => r.predicted_demand) rows k
    (fun r hr => (hnn r hr).2)
  refine ⟨⟨?_, ?_⟩, ?_, ?_⟩
  · exact mul_nonneg (safeDiv_nonneg (le_min hs hdm) hdm) (by norm_num)
  · have h1 := safeDiv_le_one (min_le_right
      (fiberSum key (fun r => r.opening_stock_units) rows k)
      (fiberSum key (fun r => r.predicted_demand) rows k)) hdm
    show safeDiv (min (fiberSum key (fun r => r.opening_stock_units) rows k)
      (fiberSum key (fun r => r.predicted_demand) rows k))
      (fiberSum key (fun r => r.predicted_demand) rows k) 0 * 100 ≤ 100
    linarith
  · exact mul_nonneg (safeDiv_nonneg (le_max_right _ 0) hs) (by norm_num)
  · have h2 : max (fiberSum key (fun r => r.opening_stock_units) rows k -
        fiberSum key (fun r => r.predicted_demand) rows k) 0 ≤
        fiberSum key (fun r => r.opening_stock_units) rows k :=
      max_le (by linarith) hs
    have h1 := safeDiv_le_one h2 hs
    show safeDiv (max (fiberSum key (fun r => r.opening_stock_units) rows k -
      fiberSum key (fun r => r.predicted_demand) rows k) 0)
      (fiberSum key (fun r => r.opening_stock_units) rows k) 0 * 100 ≤ 100
    linarith

theorem storeLevelRows_pct_nonneg {K : Type} [DecidableEq K] (key : StoreRow → K)
    (dims : K → String × Option String × Option String × Option ℕ) (useCsv : Bool)
    (level : String) (stockoutOf : K → ℕ) (rows : List StoreRow)
    (hsh : ∀ r ∈ rows, 0 ≤ r.on_shelf_units)
    (hcap : ∀ r ∈ rows, 0 ≤ r.planogram_capacity_units) :
    ∀ row ∈ storeLevelRows key dims useCsv level stockoutOf rows,
      0 ≤ row.on_shelf_availability_pct := by
  intro row hrow
  rcases List.mem_map.mp hrow with ⟨k, _, hk⟩
  rw [← hk]
  exact mul_nonneg (safeDiv_nonneg
    (fiberSum_nonneg key (fun r => r.on_shelf_units) rows k hsh)
    (fiberSum_nonneg key (fun r => r.planogram_capacity_units) rows k hcap)) (by norm_num)

theorem dcPrep_subset (t : DcTable) : ∀ r ∈ dcPrep t, r ∈ t.rows := by
  intro r hr
  unfold dcPrep at hr
  split at hr
  · exact (List.mem_filter.mp hr).1
  · exact hr

theorem storePrep_nonneg_shelf (t : StoreTable) : ∀ r ∈ storePrep t, 0 ≤ r.on_shelf_units := by
  intro r hr
  rcases List.mem_map.mp hr with ⟨r0, _, hr0⟩
  rw [← hr0]
  exact le_max_right r0.on_shelf_units 0

theorem storePrep_cap (t : StoreTable) (h : ∀ r ∈ t.rows, 0 ≤ r.planogram_capacity_units) :
    ∀ r ∈ storePrep t, 0 ≤ r.planogram_capacity_units := by
  intro r hr
  rcases List.mem_map.mp hr with ⟨r0, hr0mem, hr0⟩
  have hmem : r0 ∈ t.rows := by
    unfold storePrepFiltered at hr0mem
    split at hr0mem
    · exact (List.mem_filter.mp hr0mem).1
    · exact hr0mem
  rw [← hr0]
  exact h r0 hmem

/-! ## Theorems: percentage ranges of the builder outputs (C1) -/

/-- C1 counterexample: a factory row with actual output 200 against
batch capacity 100 yields `line_utilization_pct = 200`, which is neither
in `[0, 100]` nor the 0.0 safe-divide default. -/
theorem builder_pct_range_cex :
    ((computeFactoryKpis cexFactoryTable).head?.map (fun r => r.line_utilization_pct)) =
      some 200 ∧
    ¬ ((200:ℚ) ≤ 100) ∧ (200:ℚ) ≠ 0 := by
  refine ⟨?_, by norm_num, by norm_num⟩
  norm_num [computeFactoryKpis, cexFactoryTable, factoryStdCols, factoryRequiredCols,
    factoryLevelRows, keysOf, fiberSum, fiber, mkFactoryAgg, factoryKeyLDH, factoryKeyLD,
    factoryKeyL, factoryKeyF, safeDiv]

/-- C1 amended: for cleaned inputs (quantity columns nonnegative, as the
quality layer guarantees), every percentage column of every builder
output is a well-defined nonnegative rational (0.0 by the safe-divide
default when the denominator is zero, never NaN or infinite);
`service_level_pct` and `waste_pct` moreover lie in `[0, 100]`, while
`line_utilization_pct`, `production_adherence_pct`, `defect_rate_pct`
and `on_shelf_availability_pct` can exceed 100 when the numerator sum
exceeds the denominator sum. -/
theorem builder_pct_bounds (ft : FactoryTable) (dt : DcTable) (st : StoreTable)
    (hft : ∀ r ∈ ft.rows, 0 ≤ r.prod_actual_qty ∧ 0 ≤ r.prod_plan_qty ∧ 0 ≤ r.defect_qty ∧
      0 ≤ r.scrap_qty ∧ 0 ≤ r.batch_size_units)
    (hdt : ∀ r ∈ dt.rows, 0 ≤ r.opening_stock_units ∧ 0 ≤ r.predicted_demand)
    (hst : ∀ r ∈ st.rows, 0 ≤ r.planogram_capacity_units) :
    (∀ row ∈ computeFactoryKpis ft, 0 ≤ row.line_utilization_pct ∧
      0 ≤ row.production_adherence_pct ∧ 0 ≤ row.defect_rate_pct) ∧
    (∀ row ∈ computeDcKpis dt, (0 ≤ row.service_level_pct ∧ row.service_level_pct ≤ 100) ∧
      (0 ≤ row.waste_pct ∧ row.waste_pct ≤ 100)) ∧
    (∀ row ∈ computeStoreKpis st, 0 ≤ row.on_shelf_availability_pct) := by
  refine ⟨?_, ?_, ?_⟩
  · intro row hrow
    unfold computeFactoryKpis at hrow
    split at hrow
    · rcases List.mem_append.mp hrow with hA | hB
      · split at hA
        · rcases List.mem_append.mp hA with h12 | h3
          · rcases List.mem_append.mp h12 with h1 | h2
            · exact factoryLevelRows_pct_nonneg _ _ _ _ hft row h1
            · exact factoryLevelRows_pct_nonneg _ _ _ _ hft row h2
          · exact factoryLevelRows_pct_nonneg _ _ _ _ hft row h3
        · cases hA
      · split at hB
        · exact factoryLevelRows_pct_nonneg _ _ _ _ hft row hB
        · cases hB
    · cases hrow
  · intro row hrow
    have hdt' : ∀ r ∈ dcPrep dt, 0 ≤ r.opening_stock_units ∧ 0 ≤ r.predicted_demand :=
      fun r hr => hdt r (dcPrep_subset dt r hr)
    unfold computeDcKpis at hrow
    split at hrow
    · rcases List.mem_append.mp hrow with hA | hB
      · split at hA
        · rcases List.mem_append.mp hA with h1 | h2
          · exact dcLevelRows_pct_bounds _ _ _ _ _ hdt' row h1
          · exact dcLevelRows_pct_bounds _ _ _ _ _ hdt' row h2
        · cases hA
      · split at hB
        · exact dcLevelRows_pct_bounds _ _ _ _ _ hdt' row hB
        · cases hB
    · cases hrow
  · intro row hrow
    have hsh := storePrep_nonneg_shelf st
    have hcap := storePrep_cap st hst
    unfold computeStoreKpis at hrow
    split at hrow
    · rcases List.mem_append.mp hrow with hA | hB
      · split at hA
        · rcases List.mem_append.mp hA with h1 | h2
          · exact storeLevelRows_pct_nonneg _ _ _ _ _ _ hsh hcap row h1
          · exact storeLevelRows_pct_nonneg _ _ _ _ _ _ hsh hcap row h2
        · cases hA
      · split at hB
        · exact storeLevelRows_pct_nonneg _ _ _ _ _ _ hsh hcap row hB
        · cases hB
    · cases hrow

/-- Witness for the amended C1 at concrete cleaned extracts. -/
theorem builder_pct_bounds_witness :
    ((∀ r ∈ witFactoryTable.rows, 0 ≤ r.prod_actual_qty ∧ 0 ≤ r.prod_plan_qty ∧
        0 ≤ r.defect_qty ∧ 0 ≤ r.scrap_qty ∧ 0 ≤ r.batch_size_units) ∧
     (∀ r ∈ witDcTable.rows, 0 ≤ r.opening_stock_units ∧ 0 ≤ r.predicted_demand) ∧
     (∀ r ∈ cexStoreTable.rows, 0 ≤ r.planogram_capacity_units)) ∧
    ((∀ row ∈ computeFactoryKpis witFactoryTable, 0 ≤ row.line_utilization_pct ∧
        0 ≤ row.production_adherence_pct ∧ 0 ≤ row.defect_rate_pct) ∧
     (∀ row ∈ computeDcKpis witDcTable,
        (0 ≤ row.service_level_pct ∧ row.service_level_pct ≤ 100) ∧
        (0 ≤ row.waste_pct ∧ row.waste_pct ≤ 100)) ∧
     (∀ row ∈ computeStoreKpis cexStoreTable, 0 ≤ row.on_shelf_availability_pct)) :=
  ⟨⟨by decide, by decide, by decide⟩,
   builder_pct_bounds witFactoryTable witDcTable cexStoreTable
     (by decide) (by decide) (by decide)⟩

/-! ## Theorems: stockout incidents in the store builder (C6) -/

/-- C6 counterexample: two rows in the same `(store, sku, date, hour)`
group, both with `on_shelf_units = 0`, produce a granular
`stockout_incidents` of 1 (an indicator of the zero group sum), while
the count of rows in the grouping with `on_shelf == 0` is 2. -/
theorem store_stockout_cex :
    ((computeStoreKpis cexStoreTable).filter
      (fun r => decide (r.kpi_level = "store_sku_date_hour"))).map
        (fun r => r.stockout_incidents) = [1] ∧
    ((storePrep cexStoreTable).filter
      (fun r => decide (r.store_id = "S1") && decide (r.on_shelf_units = 0))).length = 2 ∧
    (1:ℕ) ≠ 2 := by
  refine ⟨?_, by decide, by decide⟩
  norm_num [computeStoreKpis, cexStoreTable, storeStdCols, storeRequiredCols, storeLevelRows,
    storePrep, storePrepFiltered, keysOf, fiberSum, fiber, mkStoreAgg, storeKeySSDH, storeKeySS,
    storeStockoutCount, safeDiv]
  exact ⟨by decide, by decide⟩

/-- C6 amended: at the `store` level, `stockout_incidents` is the count
of prepared rows of that store with `on_shelf_units = 0` (the code
counts `<= 0`, which coincides after clipping); at the `store_sku` and
`store_sku_date_hour` levels it is only an indicator — 1 when the
group's summed `on_shelf_units` is 0 and 0 otherwise, not a row count. -/
theorem store_stockout_amended (t : StoreTable) (row : StoreAggRow)
    (hrow : row ∈ computeStoreKpis t) :
    (row.kpi_level = "store" →
      row.stockout_incidents = ((storePrep t).filter
        (fun r => decide (r.store_id = row.store_id) &&
          decide (r.on_shelf_units = 0))).length) ∧
    ((row.kpi_level = "store_sku" ∨ row.kpi_level = "store_sku_date_hour") →
      row.stockout_incidents = if row.on_shelf_units = 0 then 1 else 0) := by
  unfold computeStoreKpis at hrow
  split at hrow
  · rcases List.mem_append.mp hrow with hA | hB
    · split at hA
      · rcases List.mem_append.mp hA with h1 | h2
        · rcases List.mem_map.mp h1 with ⟨k, _, hk⟩
          rw [← hk]
          constructor
          · intro hlev
            have hlev2 : ("store_sku_date_hour" : String) = "store" := hlev
            exact absurd hlev2 (by decide)
          · intro _
            rfl
        · rcases List.mem_map.mp h2 with ⟨k, _, hk⟩
          rw [← hk]
          constructor
          · intro hlev
            have hlev2 : ("store_sku" : String) = "store" := hlev
            exact absurd hlev2 (by decide)
          · intro _
            rfl
      · cases hA
    · split at hB
      · rcases List.mem_map.mp hB with ⟨sid, _, hk⟩
        rw [← hk]
        constructor
        · intro _
          show storeStockoutCount (storePrep t) sid = ((storePrep t).filter
            (fun r => decide (r.store_id = sid) && decide (r.on_shelf_units = 0))).length
          unfold storeStockoutCount
          congr 1
          apply List.filter_congr
          intro r hr
          have h0 : 0 ≤ r.on_shelf_units := storePrep_nonneg_shelf t r hr
          by_cases hz : r.on_shelf_units = 0
          · rw [hz]
            rfl
          · have h1 : decide (r.on_shelf_units ≤ 0) = false :=
              decide_eq_false (fun hle => hz (le_antisymm hle h0))
            have h2 : decide (r.on_shelf_units = 0) = false := decide_eq_false hz
            rw [h1, h2]
        · intro hlev
          rcases hlev with h | h
          · have h2 : ("store" : String) = "store_sku" := h
            exact absurd h2 (by decide)
          · have h2 : ("store" : String) = "store_sku_date_hour" := h
            exact absurd h2 (by decide)
      · cases hB
  · cases hrow

/-- Witness for the amended C6: the granular row of the two-row store
extract carries the indicator semantics. -/
theorem store_stockout_amended_witness :
    (witStoreAgg ∈ computeStoreKpis cexStoreTable) ∧
    ((witStoreAgg.kpi_level = "store" →
      witStoreAgg.stockout_incidents = ((storePrep cexStoreTable).filter
        (fun r => decide (r.store_id = witStoreAgg.store_id) &&
          decide (r.on_shelf_units = 0))).length) ∧
     ((witStoreAgg.kpi_level = "store_sku" ∨ witStoreAgg.kpi_level = "store_sku_date_hour") →
      witStoreAgg.stockout_incidents =
        if witStoreAgg.on_shelf_units = 0 then 1 else 0)) := by
  have hmem : witStoreAgg ∈ computeStoreKpis cexStoreTable := by
    unfold computeStoreKpis
    rw [if_pos (by decide)]
    apply List.mem_append_left
    rw [if_pos (by decide)]
    apply List.mem_append_left
    unfold storeLevelRows
    apply List.mem_map.mpr
    exact ⟨("S1", "K1", "d", 0), by decide, rfl⟩
  exact ⟨hmem, store_stockout_amended cexStoreTable witStoreAgg hmem⟩

end DataLayer
